import Mathlib

/-!
Shallow embedding of the Meshy Roblox Bridge server (server.py): the token
lifecycle, the OAuth state store, the upload orchestrator (/import) and the
upload-status poller.  Remote HTTP interactions are abstracted as oracle
parameters describing the response the remote endpoint would give; each
handler returns its outcome together with the updated in-memory state and
flags recording which remote calls were issued.  Timestamps are modelled as
natural numbers of seconds; the source compares times with `<` only, so the
rearranged additive inequalities below are exactly the source's real-number
comparisons.
-/

namespace Bridge

/-- User identity stored under user_tokens["user_info"] (server.py lines
266-270). -/
structure UserInfo where
  userId : String
  username : String
  displayName : String
deriving DecidableEq

/-- The user_tokens dict (server.py line 63).  `none` models a missing or
falsy entry (the source tests entries with `if not ...`). -/
structure TokenState where
  access_token : Option String
  refresh_token : Option String
  expires_at : Nat
  user_info : Option UserInfo
deriving DecidableEq

/-- Oracle for the token endpoint's answer to a refresh request:
HTTP status, parsed JSON body fields, and raw text (used in logging only).
`refresh_token := none` models a body with no refresh_token field;
`expires_in := none` a body with no expires_in field. -/
structure RefreshResp where
  status : Nat
  access_token : String
  refresh_token : Option String
  expires_in : Option Nat
  text : String
deriving DecidableEq

/-- refresh_access_token (server.py lines 95-123).  Returns the source's
boolean result together with the updated user_tokens.  The HTTP request to
the token endpoint is issued exactly when a refresh token is stored; the
oracle `resp` is that endpoint's answer. -/
def refresh_access_token (st : TokenState) (now : Nat) (resp : RefreshResp) :
    Bool × TokenState :=
  match st.refresh_token with
  | none => (false, st)
  | some rt =>
    if resp.status = 200 then
      (true,
        { st with
          access_token := some resp.access_token,
          refresh_token := some (resp.refresh_token.getD rt),
          expires_at := now + resp.expires_in.getD 900 })
    else
      (false, st)

/-- get_valid_access_token (server.py lines 126-135).  The third component
counts the refresh attempts triggered (invocations of
refresh_access_token): always 0 or 1. -/
def get_valid_access_token (st : TokenState) (now : Nat) (resp : RefreshResp) :
    Option String × TokenState × Nat :=
  match st.access_token with
  | none => (none, st, 0)
  | some tok =>
    if st.expires_at < now + 60 then
      let r := refresh_access_token st now resp
      if r.1 then (r.2.access_token, r.2, 1) else (none, r.2, 1)
    else
      (some tok, st, 0)

/-- C5: when the token endpoint answers a refresh request with any status
other than 200, refresh_access_token returns failure and the stored
credential (access token, refresh token, expiry, user identity) is exactly
what it was before the attempt. -/
theorem refresh_failure_preserves_credential (st : TokenState) (now : Nat)
    (resp : RefreshResp) (rt : String) (hrt : st.refresh_token = some rt)
    (hs : resp.status ≠ 200) :
    refresh_access_token st now resp = (false, st) := by
  simp [refresh_access_token, hrt, hs]

/-- Witness for C5 at a concrete state and a concrete 503 answer. -/
theorem refresh_failure_preserves_credential_witness :
    refresh_access_token ⟨some "atk", some "rtk", 1000, none⟩ 500
        ⟨503, "x", none, none, "server error"⟩
      = (false, ⟨some "atk", some "rtk", 1000, none⟩) :=
  refresh_failure_preserves_credential ⟨some "atk", some "rtk", 1000, none⟩
    500 ⟨503, "x", none, none, "server error"⟩ "rtk" rfl (by decide)

/-- C6: on a successful (HTTP 200) refresh, the new stored refresh token is
the response's refresh_token field when that field is present, and the
previous refresh token carried forward unchanged when it is absent — never
None. -/
theorem refresh_token_carry_forward (st : TokenState) (now : Nat)
    (resp : RefreshResp) (rt : String) (hrt : st.refresh_token = some rt)
    (hs : resp.status = 200) :
    (resp.refresh_token = none →
      (refresh_access_token st now resp).2.refresh_token = some rt) ∧
    (∀ r, resp.refresh_token = some r →
      (refresh_access_token st now resp).2.refresh_token = some r) := by
  constructor
  · intro habs
    simp [refresh_access_token, hrt, hs, habs]
  · intro r hr
    simp [refresh_access_token, hrt, hs, hr]

/-- Witness for C6: a 200 response with no refresh_token field keeps the
stored one. -/
theorem refresh_token_carry_forward_witness :
    (refresh_access_token ⟨some "atk", some "rtk", 1000, none⟩ 500
        ⟨200, "newtok", none, some 900, ""⟩).2.refresh_token = some "rtk" :=
  (refresh_token_carry_forward ⟨some "atk", some "rtk", 1000, none⟩ 500
    ⟨200, "newtok", none, some 900, ""⟩ "rtk" rfl rfl).1 rfl

/-- C4: get_valid_access_token returns None with no stored credential;
with one, it triggers exactly one refresh attempt when expires_at is
within 60 seconds of now (returning the refreshed access token when the
refresh succeeds and None when it fails), and zero refresh attempts
otherwise, returning the stored access token unchanged. -/
theorem get_valid_access_token_spec (st : TokenState) (now : Nat)
    (resp : RefreshResp) :
    (st.access_token = none →
      get_valid_access_token st now resp = (none, st, 0)) ∧
    (∀ tok, st.access_token = some tok →
      (st.expires_at < now + 60 →
        (get_valid_access_token st now resp).2.2 = 1 ∧
        ((refresh_access_token st now resp).1 = true →
          (get_valid_access_token st now resp).1
            = (refresh_access_token st now resp).2.access_token) ∧
        ((refresh_access_token st now resp).1 = false →
          (get_valid_access_token st now resp).1 = none)) ∧
      (¬ st.expires_at < now + 60 →
        get_valid_access_token st now resp = (some tok, st, 0))) := by
  refine ⟨fun h => by simp [get_valid_access_token, h], fun tok htok => ⟨fun hexp => ?_, fun hexp => ?_⟩⟩
  · refine ⟨?_, ?_, ?_⟩ <;>
      simp only [get_valid_access_token, htok, if_pos hexp] <;>
      rcases h : (refresh_access_token st now resp).1 <;> simp [h]
  · simp [get_valid_access_token, htok, hexp]

/-- Witness for C4: a near-expiry credential with a successful refresh
yields the refreshed token and exactly one refresh attempt. -/
theorem get_valid_access_token_spec_witness :
    (get_valid_access_token ⟨some "atk", some "rtk", 100, none⟩ 50
        ⟨200, "newtok", some "rt2", some 900, ""⟩).1 = some "newtok" ∧
    (get_valid_access_token ⟨some "atk", some "rtk", 100, none⟩ 50
        ⟨200, "newtok", some "rt2", some 900, ""⟩).2.2 = 1 := by
  have h := (get_valid_access_token_spec ⟨some "atk", some "rtk", 100, none⟩
    50 ⟨200, "newtok", some "rt2", some 900, ""⟩).2 "atk" rfl
  have h1 := (h.1 (by decide))
  exact ⟨(h1.2.1 rfl).trans rfl, h1.1⟩

/-- One entry of the oauth_states dict (server.py lines 171-174). -/
structure StateData where
  code_verifier : String
  created_at : Nat
deriving DecidableEq

/-- The oauth_states dict (server.py line 62), as a finite partial map. -/
abbrev OAuthStates := String → Option StateData

/-- Dict insertion oauth_states[state] = data. -/
def statesInsert (m : OAuthStates) (state : String) (d : StateData) :
    OAuthStates :=
  fun k => if k = state then some d else m k

/-- Dict removal with lookup: oauth_states.pop(state, None)
(server.py line 213). -/
def statesPop (m : OAuthStates) (state : String) :
    Option StateData × OAuthStates :=
  (m state, fun k => if k = state then none else m k)

/-- Expiry sweep of states older than 10 minutes (server.py lines 163-166);
an entry survives exactly when created_at is not below now - 600. -/
def sweepStates (m : OAuthStates) (now : Nat) : OAuthStates :=
  fun k =>
    match m k with
    | some d => if d.created_at + 600 < now then none else some d
    | none => none

/-- State-store effect of /roblox/authorize (server.py lines 156-189):
sweep, then record the fresh state with its PKCE verifier. -/
def roblox_authorize (m : OAuthStates) (now : Nat)
    (state code_verifier : String) : OAuthStates :=
  statesInsert (sweepStates m now) state ⟨code_verifier, now⟩

/-- Outcome of the state-consumption step of the OAuth callback. -/
inductive CallbackOutcome where
  | errorPage (status : Nat) (message : String)
  | proceed (code_verifier : String)
deriving DecidableEq

/-- State-validation phase of oauth_callback (server.py lines 213-220):
pop the state; absence yields the 400 invalid-state page, presence yields
the stored verifier for the token exchange. -/
def oauth_callback_state_step (m : OAuthStates) (state : String) :
    CallbackOutcome × OAuthStates :=
  let p := statesPop m state
  match p.1 with
  | none => (.errorPage 400 "Invalid state parameter. Please try again.", p.2)
  | some d => (.proceed d.code_verifier, p.2)

/-- C3: for an authorization attempt recorded by the store, consuming its
state succeeds exactly once: the first consume removes the entry (leaving
every other key untouched) and yields its verifier, and a second consume of
the same state yields the 400 invalid-state failure. -/
theorem oauth_state_consume_exactly_once (m : OAuthStates) (now : Nat)
    (state code_verifier : String) :
    (oauth_callback_state_step (roblox_authorize m now state code_verifier)
        state).1 = .proceed code_verifier ∧
    ((oauth_callback_state_step (roblox_authorize m now state code_verifier)
        state).2) state = none ∧
    (∀ k, k ≠ state →
      ((oauth_callback_state_step (roblox_authorize m now state code_verifier)
          state).2) k
        = roblox_authorize m now state code_verifier k) ∧
    (oauth_callback_state_step
        ((oauth_callback_state_step (roblox_authorize m now state code_verifier)
            state).2) state).1
      = .errorPage 400 "Invalid state parameter. Please try again." := by
  refine ⟨?_, ?_, fun k hk => ?_, ?_⟩
  · simp [oauth_callback_state_step, statesPop, roblox_authorize, statesInsert]
  · simp [oauth_callback_state_step, statesPop, roblox_authorize, statesInsert]
  · simp [oauth_callback_state_step, statesPop, roblox_authorize, statesInsert,
      hk]
  · simp [oauth_callback_state_step, statesPop, roblox_authorize, statesInsert]

/-- Witness for C3 at a concrete store: first consume yields the verifier,
an unrelated key is untouched, and the second consume fails as invalid
state. -/
theorem oauth_state_consume_exactly_once_witness :
    (oauth_callback_state_step
        (roblox_authorize (fun _ => none) 100 "st1" "ver1") "st1").1
      = .proceed "ver1" ∧
    (oauth_callback_state_step
        (roblox_authorize (fun _ => none) 100 "st1" "ver1") "st1").2 "other"
      = roblox_authorize (fun _ => none) 100 "st1" "ver1" "other" ∧
    (oauth_callback_state_step
        ((oauth_callback_state_step
            (roblox_authorize (fun _ => none) 100 "st1" "ver1") "st1").2)
        "st1").1
      = .errorPage 400 "Invalid state parameter. Please try again." := by
  have h := oauth_state_consume_exactly_once (fun _ => none) 100 "st1" "ver1"
  exact ⟨h.1, h.2.2.1 "other" (by decide), h.2.2.2⟩

/-- One entry of the upload_operations dict (server.py lines 413-416 and the
updates at 423-426, 437-441, 511-514, 529-532, 543-547, 563-566).  Fields
other than status and created_at are absent (`none`) until set. -/
structure OpRecord where
  status : String
  created_at : Nat
  assetId : Option String
  assetUrl : Option String
  error : Option String
deriving DecidableEq

/-- The upload_operations dict (server.py line 64), as a finite partial
map. -/
abbrev OpsMap := String → Option OpRecord

/-- Dict assignment upload_operations[k] = r. -/
def opsSet (m : OpsMap) (k : String) (r : OpRecord) : OpsMap :=
  fun x => if x = k then some r else m x

/-- Keyed in-place update upload_operations[k].update(...): fails (Python
KeyError) when the key is absent. -/
def opsUpdate (m : OpsMap) (k : String) (f : OpRecord → OpRecord) :
    Option OpsMap :=
  match m k with
  | some r => some (opsSet m k (f r))
  | none => none

/-- Expiry sweep of operations older than 1 hour (server.py lines 464-468);
an entry survives exactly when created_at is not below now - 3600. -/
def sweepOps (m : OpsMap) (now : Nat) : OpsMap :=
  fun k =>
    match m k with
    | some r => if r.created_at + 3600 < now then none else some r
    | none => none

/-- Dashboard URL built for a completed upload (server.py lines 440, 448,
546, 554). -/
def assetUrlFor (asset_id : String) : String :=
  "https://create.roblox.com/dashboard/creations/store/" ++ asset_id
    ++ "/configure"

/-- A truthy JSON error object; `message := none` models an error object
with no message field, in which case the source substitutes
"Unknown error". -/
structure ErrorObj where
  message : Option String
deriving DecidableEq

/-- The message extracted from an error object: error.get("message",
"Unknown error"). -/
def errMessage (e : ErrorObj) : String :=
  e.message.getD "Unknown error"

/-- Parsed body of the remote operation-status answer.  `error := none`
models a missing (or falsy) error field; `assetId` is the str()-converted
assetId of the response object when present, `none` when missing. -/
structure OpData where
  done : Bool
  error : Option ErrorObj
  assetId : Option String
deriving DecidableEq

/-- Oracle for the remote operation-status GET: timeout, or a response with
its HTTP status and parsed body. -/
inductive RemoteResult where
  | timeout
  | resp (status : Nat) (body : OpData)
deriving DecidableEq

/-- The result object returned by /upload-status; `none` fields model JSON
null or an omitted key. -/
structure PollResult where
  operationId : String
  status : String
  assetId : Option String
  assetUrl : Option String
  error : Option String
deriving DecidableEq

/-- Outcome of one /upload-status request: an HTTPException, an unhandled
Python KeyError escaping the handler, or a JSON reply
with its success flag and result object. -/
inductive PollOutcome where
  | httpError (status : Nat) (detail : String)
  | keyError
  | ok (success : Bool) (result : PollResult)
deriving DecidableEq

/-- The process-wide mutable state the handlers touch. -/
structure BridgeState where
  tokens : TokenState
  ops : OpsMap

/-- Result of one /upload-status request: outcome, updated state, whether
the remote operation-status GET was issued, and how many token-refresh
attempts ran. -/
structure PollStep where
  outcome : PollOutcome
  state : BridgeState
  remoteCalled : Bool
  refreshCalls : Nat

/-- Local terminal-status test (server.py line 476). -/
def isTerminal (r : OpRecord) : Bool :=
  r.status == "completed" || r.status == "failed"

/-- Remote phase of upload_status (server.py lines 488-576), reached when
the local shadow is absent or not terminal. -/
def upload_status_remote (tokens : TokenState) (ops : OpsMap)
    (operation_id : String) (refreshCalls : Nat) (remote : RemoteResult) :
    PollStep :=
  match remote with
  | .timeout =>
    { outcome := .ok true ⟨operation_id, "processing", none, none, none⟩,
      state := ⟨tokens, ops⟩, remoteCalled := true,
      refreshCalls := refreshCalls }
  | .resp status data =>
    if status ≠ 200 then
      { outcome := .ok true ⟨operation_id, "processing", none, none, none⟩,
        state := ⟨tokens, ops⟩, remoteCalled := true,
        refreshCalls := refreshCalls }
    else if data.done then
      match data.error with
      | some e =>
        match opsUpdate ops operation_id
            (fun r => { r with status := "failed",
                               error := some (errMessage e) }) with
        | some ops2 =>
          { outcome := .ok false
              ⟨operation_id, "failed", none, none, some (errMessage e)⟩,
            state := ⟨tokens, ops2⟩, remoteCalled := true,
            refreshCalls := refreshCalls }
        | none =>
          { outcome := .keyError, state := ⟨tokens, ops⟩,
            remoteCalled := true, refreshCalls := refreshCalls }
      | none =>
        let asset_id := data.assetId.getD ""
        if asset_id = "" then
          match opsUpdate ops operation_id
              (fun r => { r with status := "failed",
                                 error := some "Upload completed but no Asset ID returned" }) with
          | some ops2 =>
            { outcome := .ok false
                ⟨operation_id, "failed", none, none,
                  some "Upload completed but no Asset ID returned"⟩,
              state := ⟨tokens, ops2⟩, remoteCalled := true,
              refreshCalls := refreshCalls }
          | none =>
            { outcome := .keyError, state := ⟨tokens, ops⟩,
              remoteCalled := true, refreshCalls := refreshCalls }
        else
          match opsUpdate ops operation_id
              (fun r => { r with status := "completed",
                                 assetId := some asset_id,
                                 assetUrl := some (assetUrlFor asset_id) }) with
          | some ops2 =>
            { outcome := .ok true
                ⟨operation_id, "completed", some asset_id,
                  some (assetUrlFor asset_id), none⟩,
              state := ⟨tokens, ops2⟩, remoteCalled := true,
              refreshCalls := refreshCalls }
          | none =>
            { outcome := .keyError, state := ⟨tokens, ops⟩,
              remoteCalled := true, refreshCalls := refreshCalls }
    else
      match data.error with
      | some e =>
        match opsUpdate ops operation_id
            (fun r => { r with status := "failed",
                               error := some (errMessage e) }) with
        | some ops2 =>
          { outcome := .ok false
              ⟨operation_id, "failed", none, none, some (errMessage e)⟩,
            state := ⟨tokens, ops2⟩, remoteCalled := true,
            refreshCalls := refreshCalls }
        | none =>
          { outcome := .keyError, state := ⟨tokens, ops⟩,
            remoteCalled := true, refreshCalls := refreshCalls }
      | none =>
        { outcome := .ok true ⟨operation_id, "processing", none, none, none⟩,
          state := ⟨tokens, ops⟩, remoteCalled := true,
          refreshCalls := refreshCalls }

/-- The /upload-status handler (server.py lines 461-576): sweep expired
operations, require a valid access token, short-circuit on a cached
terminal shadow, otherwise consult the remote operation-status endpoint. -/
def upload_status (st : BridgeState) (operation_id : String) (now : Nat)
    (refreshResp : RefreshResp) (remote : RemoteResult) : PollStep :=
  let ops := sweepOps st.ops now
  let g := get_valid_access_token st.tokens now refreshResp
  match g.1 with
  | none =>
    { outcome := .httpError 401 "Not connected to Roblox",
      state := ⟨g.2.1, ops⟩, remoteCalled := false, refreshCalls := g.2.2 }
  | some _ =>
    match ops operation_id with
    | some r =>
      if isTerminal r then
        { outcome := .ok (r.status == "completed")
            ⟨operation_id, r.status, r.assetId, r.assetUrl, r.error⟩,
          state := ⟨g.2.1, ops⟩, remoteCalled := false,
          refreshCalls := g.2.2 }
      else upload_status_remote g.2.1 ops operation_id g.2.2 remote
    | none => upload_status_remote g.2.1 ops operation_id g.2.2 remote

/-- Helper: a fresh credential yields its access token with no refresh
attempt. -/
theorem get_valid_fresh (st : TokenState) (now : Nat) (rr : RefreshResp)
    (tok : String) (h : st.access_token = some tok)
    (hfresh : ¬ st.expires_at < now + 60) :
    get_valid_access_token st now rr = (some tok, st, 0) := by
  simp [get_valid_access_token, h, hfresh]

/-- Helper: the hourly sweep keeps an entry younger than one hour. -/
theorem sweepOps_keep (m : OpsMap) (now : Nat) (k : String) (r : OpRecord)
    (h : m k = some r) (httl : ¬ r.created_at + 3600 < now) :
    sweepOps m now k = some r := by
  simp [sweepOps, h, httl]

/-- C2 counterexample: a shadow record that is terminal (completed, with a
cached assetId) but older than one hour is deleted by the sweep before the
cached short-circuit is consulted, so this poll issues a remote
operation-status call, contradicting the claim that no remote call is ever
made for a terminal shadow. -/
theorem terminal_cache_counterexample :
    ((fun k => if k = "op1"
        then some (⟨"completed", 0, some "42", none, none⟩ : OpRecord)
        else none) : OpsMap) "op1"
      = some ⟨"completed", 0, some "42", none, none⟩ ∧
    (upload_status
        ⟨⟨some "tok", some "rtk", 999999, none⟩,
          fun k => if k = "op1"
            then some ⟨"completed", 0, some "42", none, none⟩
            else none⟩
        "op1" 4000 ⟨200, "x", none, none, ""⟩
        (.resp 200 ⟨false, none, none⟩)).remoteCalled = true := by
  exact ⟨rfl, rfl⟩

/-- C2 (amended): for an operationId whose shadow record is terminal
(completed or failed), created within the last hour (so the sweep keeps
it), while a fresh access token is stored, the poll returns the cached
record (assetId, assetUrl, error included) with no remote operation-status
call and no refresh call, and the shadow record is unchanged. -/
theorem upload_status_terminal_cached (st : BridgeState) (id : String)
    (now : Nat) (rr : RefreshResp) (remote : RemoteResult) (r : OpRecord)
    (tok : String)
    (htok : st.tokens.access_token = some tok)
    (hfresh : ¬ st.tokens.expires_at < now + 60)
    (hrec : st.ops id = some r)
    (httl : ¬ r.created_at + 3600 < now)
    (hterm : isTerminal r = true) :
    (upload_status st id now rr remote).outcome
      = .ok (r.status == "completed")
          ⟨id, r.status, r.assetId, r.assetUrl, r.error⟩ ∧
    (upload_status st id now rr remote).remoteCalled = false ∧
    (upload_status st id now rr remote).refreshCalls = 0 ∧
    (upload_status st id now rr remote).state.ops id = some r := by
  have hg := get_valid_fresh st.tokens now rr tok htok hfresh
  have hs := sweepOps_keep st.ops now id r hrec httl
  refine ⟨?_, ?_, ?_, ?_⟩ <;> simp [upload_status, hg, hs, hterm]

/-- Witness for C2's amended theorem: a cached failed record within the TTL
is returned as-is with no remote call. -/
theorem upload_status_terminal_cached_witness :
    (upload_status
        ⟨⟨some "tok", some "rtk", 999999, none⟩,
          fun k => if k = "op7"
            then some ⟨"failed", 3000, none, none, some "boom"⟩
            else none⟩
        "op7" 4000 ⟨200, "x", none, none, ""⟩
        (.resp 200 ⟨false, none, none⟩)).outcome
      = .ok false ⟨"op7", "failed", none, none, some "boom"⟩ ∧
    (upload_status
        ⟨⟨some "tok", some "rtk", 999999, none⟩,
          fun k => if k = "op7"
            then some ⟨"failed", 3000, none, none, some "boom"⟩
            else none⟩
        "op7" 4000 ⟨200, "x", none, none, ""⟩
        (.resp 200 ⟨false, none, none⟩)).remoteCalled = false := by
  have h := upload_status_terminal_cached
    ⟨⟨some "tok", some "rtk", 999999, none⟩,
      fun k => if k = "op7"
        then some ⟨"failed", 3000, none, none, some "boom"⟩
        else none⟩
    "op7" 4000 ⟨200, "x", none, none, ""⟩
    (.resp 200 ⟨false, none, none⟩)
    ⟨"failed", 3000, none, none, some "boom"⟩ "tok"
    rfl (by decide) rfl (by decide) (by decide)
  exact ⟨h.1, h.2.1⟩

/-- C7: when the remote operation-status response has done set, no error
and a missing or empty assetId, the poll marks the (present, non-terminal)
shadow record failed with exactly "Upload completed but no Asset ID
returned" and returns that same status and message to the caller. -/
theorem upload_status_done_without_assetId (st : BridgeState) (id : String)
    (now : Nat) (rr : RefreshResp) (d : OpData) (r : OpRecord) (tok : String)
    (htok : st.tokens.access_token = some tok)
    (hfresh : ¬ st.tokens.expires_at < now + 60)
    (hrec : st.ops id = some r)
    (httl : ¬ r.created_at + 3600 < now)
    (hproc : isTerminal r = false)
    (hdone : d.done = true)
    (herr : d.error = none)
    (haid : d.assetId.getD "" = "") :
    (upload_status st id now rr (.resp 200 d)).outcome
      = .ok false ⟨id, "failed", none, none,
          some "Upload completed but no Asset ID returned"⟩ ∧
    (upload_status st id now rr (.resp 200 d)).state.ops id
      = some { r with status := "failed",
                      error := some "Upload completed but no Asset ID returned" } := by
  have hg := get_valid_fresh st.tokens now rr tok htok hfresh
  have hs := sweepOps_keep st.ops now id r hrec httl
  constructor <;>
    simp [upload_status, upload_status_remote, opsUpdate, opsSet, hg, hs,
      hproc, hdone, herr, haid]

/-- Witness for C7: a processing record polled against a done response with
no error and no assetId becomes failed with the sentinel message. -/
theorem upload_status_done_without_assetId_witness :
    (upload_status
        ⟨⟨some "tok", some "rtk", 999999, none⟩,
          fun k => if k = "op9"
            then some ⟨"processing", 3000, none, none, none⟩
            else none⟩
        "op9" 4000 ⟨200, "x", none, none, ""⟩
        (.resp 200 ⟨true, none, none⟩)).outcome
      = .ok false ⟨"op9", "failed", none, none,
          some "Upload completed but no Asset ID returned"⟩ := by
  have h := upload_status_done_without_assetId
    ⟨⟨some "tok", some "rtk", 999999, none⟩,
      fun k => if k = "op9"
        then some ⟨"processing", 3000, none, none, none⟩
        else none⟩
    "op9" 4000 ⟨200, "x", none, none, ""⟩ ⟨true, none, none⟩
    ⟨"processing", 3000, none, none, none⟩ "tok"
    rfl (by decide) rfl (by decide) (by decide) rfl rfl rfl
  exact h.1

/-- C10: polling an operationId with no local shadow entry (never created,
or already removed by the hourly sweep), when the remote response reports
done or carries an error, reaches a direct keyed update of the shadow map
and escapes with an unhandled KeyError instead of a classified result. -/
theorem upload_status_missing_shadow_keyerror (st : BridgeState)
    (id : String) (now : Nat) (rr : RefreshResp) (d : OpData) (tok : String)
    (htok : st.tokens.access_token = some tok)
    (hfresh : ¬ st.tokens.expires_at < now + 60)
    (hrec : sweepOps st.ops now id = none)
    (hcond : d.done = true ∨ d.error.isSome) :
    (upload_status st id now rr (.resp 200 d)).outcome = .keyError := by
  have hg := get_valid_fresh st.tokens now rr tok htok hfresh
  rcases hcond with hdone | herr
  · cases herrv : d.error with
    | some e =>
      simp [upload_status, upload_status_remote, opsUpdate, hg, hrec, hdone,
        herrv]
    | none =>
      by_cases haid : d.assetId.getD "" = "" <;>
        simp [upload_status, upload_status_remote, opsUpdate, hg, hrec,
          hdone, herrv, haid]
  · obtain ⟨e, herrv⟩ := Option.isSome_iff_exists.mp herr
    cases hdonev : d.done <;>
      by_cases haid : d.assetId.getD "" = "" <;>
        simp [upload_status, upload_status_remote, opsUpdate, hg, hrec,
          hdonev, herrv, haid]

/-- Witness for C10: an empty shadow store and a done response with an
assetId still produce a KeyError. -/
theorem upload_status_missing_shadow_keyerror_witness :
    (upload_status
        ⟨⟨some "tok", some "rtk", 999999, none⟩, fun _ => none⟩
        "gone" 4000 ⟨200, "x", none, none, ""⟩
        (.resp 200 ⟨true, none, some "55"⟩)).outcome = .keyError :=
  upload_status_missing_shadow_keyerror
    ⟨⟨some "tok", some "rtk", 999999, none⟩, fun _ => none⟩
    "gone" 4000 ⟨200, "x", none, none, ""⟩ ⟨true, none, some "55"⟩ "tok"
    rfl (by decide) rfl (Or.inl rfl)

/-- Downloaded payload: a valid ZIP archive with its entries (name, bytes)
in internal directory order, or a single raw file.  This mirrors the
zipfile.is_zipfile dispatch at server.py line 322. -/
inductive Payload where
  | zip (entries : List (String × String))
  | raw (data : String)
deriving DecidableEq

/-- Oracle for the model download (server.py lines 305-316). -/
inductive DownloadResult where
  | timeout
  | resp (status : Nat) (content : Payload)
deriving DecidableEq

/-- Parsed JSON body of the asset-creation answer (server.py lines
407-432): the operation path, the done flag, an optional error object and
the str()-converted assetId of the response object. -/
structure UploadBody where
  path : Option String
  done : Bool
  error : Option ErrorObj
  assetId : Option String
deriving DecidableEq

/-- Oracle for the asset-creation POST (server.py lines 386-397): timeout,
or a response with status, raw text and parsed body. -/
inductive UploadResult where
  | timeout
  | resp (status : Nat) (text : String) (body : UploadBody)
deriving DecidableEq

/-- The /import request model (server.py lines 282-286). -/
structure ImportRequest where
  modelUrl : String
  format : String := "glb"
  displayName : String := "Meshy Model"
  description : String := "Created with Meshy AI"
deriving DecidableEq

/-- The result object of a successful /import call. -/
structure ImportResult where
  operationId : String
  status : String
  assetId : Option String
  assetUrl : Option String
deriving DecidableEq

/-- Outcome of one /import request: an HTTPException, or the success
reply. -/
inductive ImportOutcome where
  | httpError (status : Nat) (detail : String)
  | ok (result : ImportResult)
deriving DecidableEq

/-- The target_extensions lookup with its dict default (server.py lines
323-329). -/
def target_extensions (fmt : String) : List String :=
  if fmt = "fbx" then [".fbx"]
  else if fmt = "glb" then [".glb"]
  else if fmt = "gltf" then [".gltf", ".glb"]
  else if fmt = "obj" then [".obj"]
  else [".glb", ".fbx"]

/-- Python str.endswith, modelled structurally on the character list. -/
def strEndsWith (s sfx : String) : Bool :=
  sfx.data.isSuffixOf s.data

/-- Python str.lower, modelled characterwise (the source only compares
ASCII extensions). -/
def strLower (s : String) : String :=
  String.mk (s.data.map Char.toLower)

/-- The per-entry match test of the extraction loop (server.py line 334):
the lowercased name ends with one of the candidate extensions. -/
def matchesExt (exts : List String) (name : String) : Bool :=
  exts.any (fun ext => strEndsWith (strLower name) ext)

/-- The extraction loop (server.py lines 332-336): first entry whose name
matches, in the archive's internal directory order. -/
def find_model_file (entries : List (String × String)) (exts : List String) :
    Option (String × String) :=
  entries.find? (fun e => matchesExt exts e.1)

/-- Format re-derivation from the matched entry's extension (server.py
lines 339-347). -/
def infer_format (file_format : String) (model_file : String) : String :=
  if strEndsWith (strLower model_file) ".glb" then "glb"
  else if strEndsWith (strLower model_file) ".gltf" then "gltf"
  else if strEndsWith (strLower model_file) ".fbx" then "fbx"
  else if strEndsWith (strLower model_file) ".obj" then "obj"
  else file_format

/-- Python repr of the archive's name list as interpolated into the
no-match error detail (server.py line 354); 39 is the ASCII quote
character. -/
def zipContentsListing (names : List String) : String :=
  "[" ++ String.intercalate ", "
    (names.map (fun n =>
      String.singleton (Char.ofNat 39) ++ n ++ String.singleton (Char.ofNat 39)))
    ++ "]"

/-- Step 1.5 of import_model (server.py lines 318-357): unwrap a ZIP
payload, returning the chosen file's bytes and the re-derived format, or
the 400 no-match failure; a non-ZIP payload is used verbatim with the
requested format. -/
def extract_model (file_format : String) (raw_data : Payload) :
    Except (Nat × String) (String × String) :=
  match raw_data with
  | .raw d => .ok (d, file_format)
  | .zip entries =>
    match find_model_file entries (target_extensions file_format) with
    | some e => .ok (e.2, infer_format file_format e.1)
    | none =>
      .error (400, "No " ++ file_format
        ++ " model file found in ZIP. Contents: "
        ++ zipContentsListing (entries.map Prod.fst))

/-- Python str.split on a single-character separator, modelled
structurally on the character list: it always returns at least one
(possibly empty) segment. -/
def splitOnChar (sep : Char) : List Char → List (List Char)
  | [] => [[]]
  | c :: cs =>
    match splitOnChar sep cs with
    | [] => if c = sep then [[], []] else [[c]]
    | h :: t => if c = sep then [] :: h :: t else (c :: h) :: t

/-- Final slash-separated segment: operation_path.split("/")[-1]
(server.py line 411); Char.ofNat 47 is the slash character. -/
def lastSegment (path : String) : String :=
  String.mk ((splitOnChar (Char.ofNat 47) path.data).getLastD [])

/-- The /import handler (server.py lines 289-458).  The three remote
interactions (model download, asset-creation POST, and a possible token
refresh) are oracle parameters; the multipart request construction is
abstracted away since only its response is observable here. -/
def import_model (st : BridgeState) (req : ImportRequest) (now : Nat)
    (refreshResp : RefreshResp) (download : DownloadResult)
    (upload : UploadResult) : ImportOutcome × BridgeState :=
  let g := get_valid_access_token st.tokens now refreshResp
  match g.1 with
  | none =>
    (.httpError 401 "Not connected to Roblox. Please run /connect first.",
      ⟨g.2.1, st.ops⟩)
  | some _ =>
    let tokens := g.2.1
    let user_id := ((tokens.user_info.map UserInfo.userId).getD "")
    if user_id = "" then
      (.httpError 400 "User ID not found", ⟨tokens, st.ops⟩)
    else
      match download with
      | .timeout => (.httpError 408 "Model download timed out", ⟨tokens, st.ops⟩)
      | .resp dstatus raw_data =>
        if dstatus ≠ 200 then
          (.httpError 400 ("Failed to download model: " ++ toString dstatus),
            ⟨tokens, st.ops⟩)
        else
          match extract_model req.format raw_data with
          | .error e => (.httpError e.1 e.2, ⟨tokens, st.ops⟩)
          | .ok _md =>
            match upload with
            | .timeout =>
              (.httpError 408 "Upload to Roblox timed out", ⟨tokens, st.ops⟩)
            | .resp ustatus utext body =>
              if ustatus ≠ 200 ∧ ustatus ≠ 201 then
                (.httpError ustatus ("Roblox upload failed: " ++ utext),
                  ⟨tokens, st.ops⟩)
              else
                let operation_path := body.path.getD ""
                if operation_path = "" then
                  (.httpError 502 "Roblox did not return an operation path",
                    ⟨tokens, st.ops⟩)
                else
                  let operation_id := lastSegment operation_path
                  let ops1 := opsSet st.ops operation_id
                    ⟨"processing", now, none, none, none⟩
                  if body.done then
                    match body.error with
                    | some e =>
                      let msg := errMessage e
                      (.httpError 400 msg,
                        ⟨tokens, opsSet ops1 operation_id
                          ⟨"failed", now, none, none, some msg⟩⟩)
                    | none =>
                      let asset_id := body.assetId.getD ""
                      if asset_id = "" then
                        (.httpError 400 "Upload completed but no Asset ID returned",
                          ⟨tokens, ops1⟩)
                      else
                        (.ok ⟨operation_id, "completed", some asset_id,
                            some (assetUrlFor asset_id)⟩,
                          ⟨tokens, opsSet ops1 operation_id
                            ⟨"completed", now, some asset_id,
                              some (assetUrlFor asset_id), none⟩⟩)
                  else
                    (.ok ⟨operation_id, "processing", none, none⟩,
                      ⟨tokens, ops1⟩)

/-- Helper: find? returns the head of the first satisfying suffix. -/
theorem find?_first {α : Type} (p : α → Bool) (pre : List α) (e : α)
    (post : List α) (hpre : ∀ x ∈ pre, p x = false) (he : p e = true) :
    (pre ++ e :: post).find? p = some e := by
  induction pre with
  | nil => simpa [List.find?_cons] using by simp [he]
  | cons x xs ih =>
    have hx := hpre x (List.mem_cons_self x xs)
    rw [List.cons_append, List.find?_cons_of_neg _ (by simp [hx])]
    exact ih (fun y hy => hpre y (List.mem_cons_of_mem x hy))

/-- C8: extraction from a ZIP payload picks the first entry, in the
archive's internal directory order, whose lowercased name ends with an
extension matching the requested format, returns that entry's bytes, and
re-derives the resolved format from the matched name; in particular a
matched name ending in ".glb" resolves the format to "glb". -/
theorem extract_first_match (fmt : String) (pre : List (String × String))
    (e : String × String) (post : List (String × String))
    (hpre : ∀ x ∈ pre, matchesExt (target_extensions fmt) x.1 = false)
    (he : matchesExt (target_extensions fmt) e.1 = true) :
    extract_model fmt (.zip (pre ++ e :: post))
      = .ok (e.2, infer_format fmt e.1) ∧
    (strEndsWith (strLower e.1) ".glb" = true →
      infer_format fmt e.1 = "glb") := by
  constructor
  · have hfind := find?_first (fun x => matchesExt (target_extensions fmt) x.1)
      pre e post hpre he
    simp [extract_model, find_model_file, hfind]
  · intro hglb
    simp [infer_format, hglb]

/-- Witness for C8: an archive listing textures.png before model.glb, with
requested format glb, extracts exactly model.glb's bytes and resolves the
format to glb. -/
theorem extract_first_match_witness :
    extract_model "glb"
        (.zip [("textures.png", "PNGDATA"), ("model.glb", "GLBDATA")])
      = .ok ("GLBDATA", "glb") := by
  have h := extract_first_match "glb" [("textures.png", "PNGDATA")]
    ("model.glb", "GLBDATA") [] (by decide) (by decide)
  have h1 := h.1
  rw [h.2 (by decide)] at h1
  exact h1

/-- C1 counterexample: an upstream 403 from the asset-creation endpoint
makes /import fail with status 403 (the upstream status), not with status
400 as the claim states. -/
theorem import_fixed_400_counterexample :
    (import_model
        ⟨⟨some "tok", some "rtk", 999999, some ⟨"123", "u", "d"⟩⟩,
          fun _ => none⟩
        ⟨"http://x/m.glb", "glb", "Meshy Model", "Created with Meshy AI"⟩
        1000 ⟨200, "x", none, none, ""⟩ (.resp 200 (.raw "GLBDATA"))
        (.resp 403 "denied" ⟨none, false, none, none⟩)).1
      = .httpError 403 "Roblox upload failed: denied" ∧
    ¬ ∃ detail,
      (import_model
          ⟨⟨some "tok", some "rtk", 999999, some ⟨"123", "u", "d"⟩⟩,
            fun _ => none⟩
          ⟨"http://x/m.glb", "glb", "Meshy Model", "Created with Meshy AI"⟩
          1000 ⟨200, "x", none, none, ""⟩ (.resp 200 (.raw "GLBDATA"))
          (.resp 403 "denied" ⟨none, false, none, none⟩)).1
        = ImportOutcome.httpError 400 detail := by
  constructor
  · rfl
  · rintro ⟨detail, hd⟩
    rw [show (import_model
        ⟨⟨some "tok", some "rtk", 999999, some ⟨"123", "u", "d"⟩⟩,
          fun _ => none⟩
        ⟨"http://x/m.glb", "glb", "Meshy Model", "Created with Meshy AI"⟩
        1000 ⟨200, "x", none, none, ""⟩ (.resp 200 (.raw "GLBDATA"))
        (.resp 403 "denied" ⟨none, false, none, none⟩)).1
      = ImportOutcome.httpError 403 "Roblox upload failed: denied" from rfl]
      at hd
    simp at hd

/-- C1 (amended): when the asset-creation endpoint answers with a status
other than 200 or 201 (no timeout), /import fails with that upstream
status code, with a detail surfacing the upstream response body. -/
theorem import_upstream_rejection_surfaced (st : BridgeState)
    (req : ImportRequest) (now : Nat) (rr : RefreshResp) (content : Payload)
    (s : Nat) (txt : String) (body : UploadBody) (tok : String)
    (ui : UserInfo) (md : String × String)
    (htok : st.tokens.access_token = some tok)
    (hfresh : ¬ st.tokens.expires_at < now + 60)
    (hui : st.tokens.user_info = some ui)
    (huid : ui.userId ≠ "")
    (hex : extract_model req.format content = .ok md)
    (hs2 : s ≠ 200) (hs3 : s ≠ 201) :
    (import_model st req now rr (.resp 200 content) (.resp s txt body)).1
      = .httpError s ("Roblox upload failed: " ++ txt) := by
  have hg := get_valid_fresh st.tokens now rr tok htok hfresh
  simp [import_model, hg, hui, huid, hex, hs2, hs3]

/-- Witness for C1's amended theorem: a concrete upstream 500 is surfaced
as a 500 with the upstream body in the detail. -/
theorem import_upstream_rejection_surfaced_witness :
    (import_model
        ⟨⟨some "tok", some "rtk", 999999, some ⟨"123", "u", "d"⟩⟩,
          fun _ => none⟩
        ⟨"http://x/m.glb", "glb", "Meshy Model", "Created with Meshy AI"⟩
        1000 ⟨200, "x", none, none, ""⟩ (.resp 200 (.raw "GLBDATA"))
        (.resp 500 "bad" ⟨none, false, none, none⟩)).1
      = .httpError 500 ("Roblox upload failed: " ++ "bad") :=
  import_upstream_rejection_surfaced
    ⟨⟨some "tok", some "rtk", 999999, some ⟨"123", "u", "d"⟩⟩, fun _ => none⟩
    ⟨"http://x/m.glb", "glb", "Meshy Model", "Created with Meshy AI"⟩
    1000 ⟨200, "x", none, none, ""⟩ (.raw "GLBDATA") 500 "bad"
    ⟨none, false, none, none⟩ "tok" ⟨"123", "u", "d"⟩ ("GLBDATA", "glb")
    rfl (by decide) rfl (by decide) rfl (by decide) (by decide)

/-- C9: on a 200 or 201 upload response, a missing or empty path field
makes /import fail with 502 as a protocol violation by the remote; a
present nonempty path makes the operation identifier its final
slash-separated segment: the new shadow record is keyed by it, and the
processing reply (when the response is not already done) carries it. -/
theorem import_operation_path_parsing (st : BridgeState)
    (req : ImportRequest) (now : Nat) (rr : RefreshResp) (content : Payload)
    (s : Nat) (txt : String) (body : UploadBody) (tok : String)
    (ui : UserInfo) (md : String × String)
    (htok : st.tokens.access_token = some tok)
    (hfresh : ¬ st.tokens.expires_at < now + 60)
    (hui : st.tokens.user_info = some ui)
    (huid : ui.userId ≠ "")
    (hex : extract_model req.format content = .ok md)
    (hs : s = 200 ∨ s = 201) :
    (body.path.getD "" = "" →
      (import_model st req now rr (.resp 200 content) (.resp s txt body)).1
        = .httpError 502 "Roblox did not return an operation path") ∧
    (∀ p, body.path = some p → p ≠ "" →
      ((import_model st req now rr (.resp 200 content)
          (.resp s txt body)).2.ops (lastSegment p)).isSome ∧
      (body.done = false →
        (import_model st req now rr (.resp 200 content)
            (.resp s txt body)).1
          = .ok ⟨lastSegment p, "processing", none, none⟩)) := by
  have hg := get_valid_fresh st.tokens now rr tok htok hfresh
  have hupstat : ¬ (s ≠ 200 ∧ s ≠ 201) := by
    rcases hs with h | h <;> simp [h]
  constructor
  · intro hpath
    simp [import_model, hg, hui, huid, hex, hupstat, hpath]
  · intro p hp hpne
    constructor
    · cases hdone : body.done
      · simp [import_model, hg, hui, huid, hex, hupstat, hp, hpne, hdone,
          opsSet]
      · cases herr : body.error with
        | none =>
          by_cases haid : body.assetId.getD "" = "" <;>
            simp [import_model, hg, hui, huid, hex, hupstat, hp, hpne,
              hdone, herr, haid, opsSet]
        | some e =>
          simp [import_model, hg, hui, huid, hex, hupstat, hp, hpne, hdone,
            herr, opsSet]
    · intro hdone
      simp [import_model, hg, hui, huid, hex, hupstat, hp, hpne, hdone]

/-- Witness for C9: a 201 response whose path is three segments yields a
processing reply whose operation identifier is the last segment. -/
theorem import_operation_path_parsing_witness :
    (import_model
        ⟨⟨some "tok", some "rtk", 999999, some ⟨"123", "u", "d"⟩⟩,
          fun _ => none⟩
        ⟨"http://x/m.glb", "glb", "Meshy Model", "Created with Meshy AI"⟩
        1000 ⟨200, "x", none, none, ""⟩ (.resp 200 (.raw "GLBDATA"))
        (.resp 201 "okbody"
          ⟨some "assets/operations/abc123", false, none, none⟩)).1
      = .ok ⟨"abc123", "processing", none, none⟩ := by
  have h := import_operation_path_parsing
    ⟨⟨some "tok", some "rtk", 999999, some ⟨"123", "u", "d"⟩⟩, fun _ => none⟩
    ⟨"http://x/m.glb", "glb", "Meshy Model", "Created with Meshy AI"⟩
    1000 ⟨200, "x", none, none, ""⟩ (.raw "GLBDATA") 201 "okbody"
    ⟨some "assets/operations/abc123", false, none, none⟩ "tok"
    ⟨"123", "u", "d"⟩ ("GLBDATA", "glb")
    rfl (by decide) rfl (by decide) rfl (Or.inr rfl)
  exact (h.2 "assets/operations/abc123" rfl (by decide)).2 rfl

end Bridge
